import Mathlib

/-!
Verification of the runtime behaviour of the gooddata-typings narrowing
predicates and of the embedding-protocol event-name extraction.

The library's runtime surface consists of small JavaScript functions that
inspect dynamically-typed values: property-presence checks built on
lodash/isEmpty (src/VisualizationObject.ts), truthiness checks
(index.ts, AFM namespace), and the defensive destructuring chain
`getEventType` (src/embedding/common.ts) on which every embedding
command/event type-guard is built.  We embed the dynamic value universe and
each source function, then prove or refute the frozen claims about them.
-/

/-- A JavaScript runtime value, as far as the library's predicates can
observe one: the JSON constructors plus `undefined`, with numbers modelled
as integers (no predicate in scope distinguishes non-integral numbers). -/
inductive JSValue where
  | undefined : JSValue
  | null : JSValue
  | bool : Bool → JSValue
  | num : Int → JSValue
  | str : String → JSValue
  | obj : List (String × JSValue) → JSValue
  | arr : List JSValue → JSValue

/-- The runtime error relevant here: the TypeError raised by property
access (including destructuring) on `null` or `undefined`. -/
inductive JSError where
  | typeError : JSError

/-- JavaScript truthiness: `false`, `0`, the empty string, `null` and
`undefined` are falsy; every object (including `[]` and `{}`) is truthy. -/
def jsTruthy : JSValue → Bool
  | .undefined => false
  | .null => false
  | .bool b => b
  | .num n => n != 0
  | .str s => !s.isEmpty
  | .obj _ => true
  | .arr _ => true

/-- JavaScript property access `v[k]`: throws a TypeError on `null` and
`undefined`, looks up an own property on objects, and yields `undefined` on
every other primitive and on arrays (no key used by the library collides
with a built-in property). -/
def jsGet : JSValue → String → Except JSError JSValue
  | .undefined, _ => .error .typeError
  | .null, _ => .error .typeError
  | .obj fields, k => .ok ((fields.lookup k).getD .undefined)
  | _, _ => .ok .undefined

/-- Total variant of property access used in statements: yields `undefined`
wherever `jsGet` would either yield `undefined` or throw. -/
def jsGetTotal : JSValue → String → JSValue
  | .obj fields, k => (fields.lookup k).getD .undefined
  | _, _ => .undefined

/-- Is the value anything other than the `undefined` value?  This is the
`!== undefined` test of the VisualizationObject guards. -/
def isNotUndefined : JSValue → Bool
  | .undefined => false
  | _ => true

/-- Is the value anything other than `null`? -/
def isNotNull : JSValue → Bool
  | .null => false
  | _ => true

/-- lodash/isEmpty as called by the VisualizationObject guards: `null`,
`undefined`, booleans and numbers are empty; strings and arrays are empty
when their length is zero; objects are empty when they have no own keys. -/
def lodashIsEmpty : JSValue → Bool
  | .undefined => true
  | .null => true
  | .bool _ => true
  | .num _ => true
  | .str s => s.isEmpty
  | .obj fields => fields.isEmpty
  | .arr elems => elems.isEmpty

/-- JavaScript strict equality `v === s` of a runtime value against a
string literal: true exactly when `v` is that string. -/
def strictEqString : JSValue → String → Bool
  | .str t, s => t == s
  | _, _ => false

/-- The value of a destructuring default: JavaScript substitutes the
default exactly when the destructured value is `undefined` (not when it is
`null`). -/
def withDefault (fallback : JSValue) : JSValue → JSValue
  | .undefined => fallback
  | v => v

/-- src/embedding/common.ts, getEventType (lines 179-182): destructures
gdc, then event, then name out of `obj || emptyObject`, with an
empty-object default at the gdc and event levels and an empty-string
default at the name level.  The initial `||` default replaces any falsy
input by an empty object; each destructuring level applies its default
only to `undefined` and throws a TypeError when the level holds `null`. -/
def getEventType (obj : JSValue) : Except JSError JSValue :=
  match jsGet (if jsTruthy obj then obj else JSValue.obj []) "gdc" with
  | .error e => .error e
  | .ok g0 =>
    match jsGet (withDefault (JSValue.obj []) g0) "event" with
    | .error e => .error e
    | .ok e0 =>
      match jsGet (withDefault (JSValue.obj []) e0) "name" with
      | .error e => .error e
      | .ok n0 => .ok (withDefault (JSValue.str "") n0)

/-! ## Wire-vocabulary constants (TypeScript string enums) -/

namespace GdcProductName

/-- src/embedding/common.ts, GdcProductName.ANALYTICAL_DESIGNER. -/
def ANALYTICAL_DESIGNER : String := "analyticalDesigner"

/-- src/embedding/common.ts, GdcProductName.KPI_DASHBOARDS. -/
def KPI_DASHBOARDS : String := "dashboards"

end GdcProductName

namespace GdcEventType

/-- src/embedding/common.ts, GdcEventType.AppCommandFailed. -/
def AppCommandFailed : String := "appCommandFailed"

end GdcEventType

namespace GdcErrorType

/-- src/embedding/common.ts, GdcErrorType.InvalidCommand. -/
def InvalidCommand : String := "error:invalidCommand"

/-- src/embedding/common.ts, GdcErrorType.InvalidArgument. -/
def InvalidArgument : String := "error:invalidArgument"

/-- src/embedding/common.ts, GdcErrorType.InvalidState. -/
def InvalidState : String := "error:invalidState"

/-- src/embedding/common.ts, GdcErrorType.RuntimeError. -/
def RuntimeError : String := "error:runtime"

end GdcErrorType

/-- src/embedding/common.ts, isCommandFailedData: compares the extracted
event type against GdcEventType.AppCommandFailed with strict equality. -/
def isCommandFailedData (obj : JSValue) : Except JSError Bool :=
  Except.map (fun n => strictEqString n GdcEventType.AppCommandFailed) (getEventType obj)

namespace EmbeddedAnalyticalDesigner

namespace GdcAdCommandType

/-- src/embedding/ad.ts, GdcAdCommandType.DrillableItems. -/
def DrillableItems : String := "drillableItems"

/-- src/embedding/ad.ts, GdcAdCommandType.OpenInsight. -/
def OpenInsight : String := "openInsight"

/-- src/embedding/ad.ts, GdcAdCommandType.Save. -/
def Save : String := "saveInsight"

/-- src/embedding/ad.ts, GdcAdCommandType.SaveAs. -/
def SaveAs : String := "saveAsInsight"

/-- src/embedding/ad.ts, GdcAdCommandType.Export. -/
def Export : String := "exportInsight"

/-- src/embedding/ad.ts, GdcAdCommandType.Clear. -/
def Clear : String := "clear"

/-- src/embedding/ad.ts, GdcAdCommandType.Undo. -/
def Undo : String := "undo"

/-- src/embedding/ad.ts, GdcAdCommandType.Redo. -/
def Redo : String := "redo"

end GdcAdCommandType

namespace GdcAdEventType

/-- src/embedding/ad.ts, GdcAdEventType.ListeningForDrillableItems. -/
def ListeningForDrillableItems : String := "listeningForDrillableItems"

/-- src/embedding/ad.ts, GdcAdEventType.NewInsightInitialized. -/
def NewInsightInitialized : String := "newInsightInitialized"

/-- src/embedding/ad.ts, GdcAdEventType.InsightOpened. -/
def InsightOpened : String := "insightOpened"

/-- src/embedding/ad.ts, GdcAdEventType.InsightSaved. -/
def InsightSaved : String := "visualizationSaved"

/-- src/embedding/ad.ts, GdcAdEventType.UndoFinished. -/
def UndoFinished : String := "undoFinished"

/-- src/embedding/ad.ts, GdcAdEventType.RedoFinished. -/
def RedoFinished : String := "redoFinished"

/-- src/embedding/ad.ts, GdcAdEventType.ExportFinished. -/
def ExportFinished : String := "exportInsightFinished"

/-- src/embedding/ad.ts, GdcAdEventType.Drill. -/
def Drill : String := "drill"

end GdcAdEventType

/-- src/embedding/ad.ts, isAdCommandFailedData: delegates to the common
isCommandFailedData. -/
def isAdCommandFailedData (obj : JSValue) : Except JSError Bool :=
  isCommandFailedData obj

/-- src/embedding/ad.ts, isDrillableItemsCommandData (lines 213-215). -/
def isDrillableItemsCommandData (obj : JSValue) : Except JSError Bool :=
  Except.map (fun n => strictEqString n GdcAdCommandType.DrillableItems) (getEventType obj)

/-- src/embedding/ad.ts, isOpenInsightCommandData. -/
def isOpenInsightCommandData (obj : JSValue) : Except JSError Bool :=
  Except.map (fun n => strictEqString n GdcAdCommandType.OpenInsight) (getEventType obj)

/-- src/embedding/ad.ts, isClearCommandData. -/
def isClearCommandData (obj : JSValue) : Except JSError Bool :=
  Except.map (fun n => strictEqString n GdcAdCommandType.Clear) (getEventType obj)

/-- src/embedding/ad.ts, isSaveInsightCommandData (lines 380-382). -/
def isSaveInsightCommandData (obj : JSValue) : Except JSError Bool :=
  Except.map (fun n => strictEqString n GdcAdCommandType.Save) (getEventType obj)

/-- src/embedding/ad.ts, isSaveAsInsightCommandData. -/
def isSaveAsInsightCommandData (obj : JSValue) : Except JSError Bool :=
  Except.map (fun n => strictEqString n GdcAdCommandType.SaveAs) (getEventType obj)

/-- src/embedding/ad.ts, isExportInsightCommandData. -/
def isExportInsightCommandData (obj : JSValue) : Except JSError Bool :=
  Except.map (fun n => strictEqString n GdcAdCommandType.Export) (getEventType obj)

/-- src/embedding/ad.ts, isUndoCommandData. -/
def isUndoCommandData (obj : JSValue) : Except JSError Bool :=
  Except.map (fun n => strictEqString n GdcAdCommandType.Undo) (getEventType obj)

/-- src/embedding/ad.ts, isRedoCommandData. -/
def isRedoCommandData (obj : JSValue) : Except JSError Bool :=
  Except.map (fun n => strictEqString n GdcAdCommandType.Redo) (getEventType obj)

/-- src/embedding/ad.ts, isNewInsightInitializedData. -/
def isNewInsightInitializedData (obj : JSValue) : Except JSError Bool :=
  Except.map (fun n => strictEqString n GdcAdEventType.NewInsightInitialized) (getEventType obj)

/-- src/embedding/ad.ts, isInsightOpenedData. -/
def isInsightOpenedData (obj : JSValue) : Except JSError Bool :=
  Except.map (fun n => strictEqString n GdcAdEventType.InsightOpened) (getEventType obj)

/-- src/embedding/ad.ts, isInsightSavedData. -/
def isInsightSavedData (obj : JSValue) : Except JSError Bool :=
  Except.map (fun n => strictEqString n GdcAdEventType.InsightSaved) (getEventType obj)

/-- src/embedding/ad.ts, isExportFinishedData. -/
def isExportFinishedData (obj : JSValue) : Except JSError Bool :=
  Except.map (fun n => strictEqString n GdcAdEventType.ExportFinished) (getEventType obj)

/-- src/embedding/ad.ts, isUndoFinishedData. -/
def isUndoFinishedData (obj : JSValue) : Except JSError Bool :=
  Except.map (fun n => strictEqString n GdcAdEventType.UndoFinished) (getEventType obj)

/-- src/embedding/ad.ts, isRedoFinishedData. -/
def isRedoFinishedData (obj : JSValue) : Except JSError Bool :=
  Except.map (fun n => strictEqString n GdcAdEventType.RedoFinished) (getEventType obj)

end EmbeddedAnalyticalDesigner

namespace EmbeddedKpiDashboard

namespace GdcKdCommandType

/-- src/embedding/common.ts, GdcKdCommandType.Save. -/
def Save : String := "saveDashboard"

/-- src/embedding/common.ts, GdcKdCommandType.CancelEdit. -/
def CancelEdit : String := "cancelEdit"

/-- src/embedding/common.ts, GdcKdCommandType.Delete. -/
def Delete : String := "deleteDashboard"

/-- src/embedding/common.ts, GdcKdCommandType.SwitchToEdit. -/
def SwitchToEdit : String := "switchToEdit"

/-- src/embedding/common.ts, GdcKdCommandType.DrillableItems. -/
def DrillableItems : String := "drillableItems"

/-- src/embedding/common.ts, GdcKdCommandType.SetSize. -/
def SetSize : String := "setSize"

/-- src/embedding/common.ts, GdcKdCommandType.AddWidget. -/
def AddWidget : String := "addWidget"

/-- src/embedding/common.ts, GdcKdCommandType.AddFilter. -/
def AddFilter : String := "addFilter"

/-- src/embedding/common.ts, GdcKdCommandType.ExportToPdf. -/
def ExportToPdf : String := "exportToPdf"

end GdcKdCommandType

namespace GdcKdEventType

/-- src/embedding/common.ts, GdcKdEventType.DashboardSaved. -/
def DashboardSaved : String := "dashboardSaved"

/-- src/embedding/common.ts, GdcKdEventType.ExportedToPdf. -/
def ExportedToPdf : String := "exportedToPdf"

end GdcKdEventType

/-- src/embedding/common.ts, isSaveDashboardCommandData (lines 393-395). -/
def isSaveDashboardCommandData (obj : JSValue) : Except JSError Bool :=
  Except.map (fun n => strictEqString n GdcKdCommandType.Save) (getEventType obj)

/-- src/embedding/common.ts, isCancelEditCommandData. -/
def isCancelEditCommandData (obj : JSValue) : Except JSError Bool :=
  Except.map (fun n => strictEqString n GdcKdCommandType.CancelEdit) (getEventType obj)

/-- src/embedding/common.ts, isSwitchToEditCommandData. -/
def isSwitchToEditCommandData (obj : JSValue) : Except JSError Bool :=
  Except.map (fun n => strictEqString n GdcKdCommandType.SwitchToEdit) (getEventType obj)

/-- src/embedding/common.ts, isDrillableItemsCommandData (lines 493-495). -/
def isDrillableItemsCommandData (obj : JSValue) : Except JSError Bool :=
  Except.map (fun n => strictEqString n GdcKdCommandType.DrillableItems) (getEventType obj)

/-- src/embedding/common.ts, isSetSizeCommandData. -/
def isSetSizeCommandData (obj : JSValue) : Except JSError Bool :=
  Except.map (fun n => strictEqString n GdcKdCommandType.SetSize) (getEventType obj)

/-- src/embedding/common.ts, isAddWidgetCommandData. -/
def isAddWidgetCommandData (obj : JSValue) : Except JSError Bool :=
  Except.map (fun n => strictEqString n GdcKdCommandType.AddWidget) (getEventType obj)

/-- src/embedding/common.ts, isAddFilterCommandData. -/
def isAddFilterCommandData (obj : JSValue) : Except JSError Bool :=
  Except.map (fun n => strictEqString n GdcKdCommandType.AddFilter) (getEventType obj)

/-- src/embedding/common.ts, isExportToPdfCommandData. -/
def isExportToPdfCommandData (obj : JSValue) : Except JSError Bool :=
  Except.map (fun n => strictEqString n GdcKdCommandType.ExportToPdf) (getEventType obj)

/-- src/embedding/common.ts, isIdentifierInsight (lines 547-549): returns
the raw value of obj.identifier (no boolean coercion in the source), and
therefore throws on null or undefined input. -/
def isIdentifierInsight (obj : JSValue) : Except JSError JSValue :=
  jsGet obj "identifier"

/-- src/embedding/common.ts, isUriInsight: returns the raw value of
obj.uri. -/
def isUriInsight (obj : JSValue) : Except JSError JSValue :=
  jsGet obj "uri"

end EmbeddedKpiDashboard

namespace AFM

/-- index.ts, isObjectUriQualifier (lines 163-165): double-negation of the
uri property, i.e. its truthiness. -/
def isObjectUriQualifier (qualifier : JSValue) : Except JSError Bool :=
  Except.map jsTruthy (jsGet qualifier "uri")

/-- index.ts, isSimpleMeasureDefinition (lines 167-171): double-negation
of the measure property. -/
def isSimpleMeasureDefinition (definition : JSValue) : Except JSError Bool :=
  Except.map jsTruthy (jsGet definition "measure")

/-- index.ts, isPopMeasureDefinition (lines 173-177). -/
def isPopMeasureDefinition (definition : JSValue) : Except JSError Bool :=
  Except.map jsTruthy (jsGet definition "popMeasure")

/-- index.ts, isAttributeSortItem (lines 179-181). -/
def isAttributeSortItem (sortItem : JSValue) : Except JSError Bool :=
  Except.map jsTruthy (jsGet sortItem "attributeSortItem")

/-- index.ts, isMeasureSortItem (lines 183-185). -/
def isMeasureSortItem (sortItem : JSValue) : Except JSError Bool :=
  Except.map jsTruthy (jsGet sortItem "measureSortItem")

/-- index.ts, isMeasureLocatorItem (lines 187-189). -/
def isMeasureLocatorItem (locator : JSValue) : Except JSError Bool :=
  Except.map jsTruthy (jsGet locator "measureLocatorItem")

/-- index.ts, isPositiveAttributeFilter (lines 191-193). -/
def isPositiveAttributeFilter (filter : JSValue) : Except JSError Bool :=
  Except.map jsTruthy (jsGet filter "positiveAttributeFilter")

/-- index.ts, isNegativeAttributeFilter (lines 195-197). -/
def isNegativeAttributeFilter (filter : JSValue) : Except JSError Bool :=
  Except.map jsTruthy (jsGet filter "negativeAttributeFilter")

end AFM

namespace VisualizationObject

/-- src/VisualizationObject.ts, isMeasure (lines 200-202):
not lodash-empty, and the measure property is strictly distinct from
undefined.  Total: the isEmpty prefix rejects null and undefined before
any property is accessed. -/
def isMeasure (bucketItem : JSValue) : Bool :=
  !lodashIsEmpty bucketItem && isNotUndefined (jsGetTotal bucketItem "measure")

/-- src/VisualizationObject.ts, isVisualizationAttribute. -/
def isVisualizationAttribute (bucketItem : JSValue) : Bool :=
  !lodashIsEmpty bucketItem && isNotUndefined (jsGetTotal bucketItem "visualizationAttribute")

/-- src/VisualizationObject.ts, isMeasureDefinition (lines 210-214). -/
def isMeasureDefinition (definition : JSValue) : Bool :=
  !lodashIsEmpty definition && isNotUndefined (jsGetTotal definition "measureDefinition")

/-- src/VisualizationObject.ts, isArithmeticMeasureDefinition
(lines 216-220). -/
def isArithmeticMeasureDefinition (definition : JSValue) : Bool :=
  !lodashIsEmpty definition && isNotUndefined (jsGetTotal definition "arithmeticMeasure")

/-- src/VisualizationObject.ts, isPopMeasureDefinition (lines 222-226). -/
def isPopMeasureDefinition (definition : JSValue) : Bool :=
  !lodashIsEmpty definition && isNotUndefined (jsGetTotal definition "popMeasureDefinition")

/-- src/VisualizationObject.ts, isPreviousPeriodMeasureDefinition
(lines 228-233). -/
def isPreviousPeriodMeasureDefinition (definition : JSValue) : Bool :=
  !lodashIsEmpty definition && isNotUndefined (jsGetTotal definition "previousPeriodMeasure")

/-- src/VisualizationObject.ts, isAttributeFilter (lines 235-240). -/
def isAttributeFilter (filter : JSValue) : Bool :=
  !lodashIsEmpty filter &&
    (isNotUndefined (jsGetTotal filter "positiveAttributeFilter") ||
      isNotUndefined (jsGetTotal filter "negativeAttributeFilter"))

/-- src/VisualizationObject.ts, isDateFilter (lines 242-247). -/
def isDateFilter (filter : JSValue) : Bool :=
  !lodashIsEmpty filter &&
    (isNotUndefined (jsGetTotal filter "absoluteDateFilter") ||
      isNotUndefined (jsGetTotal filter "relativeDateFilter"))

/-- src/VisualizationObject.ts, isPositiveAttributeFilter
(lines 249-254). -/
def isPositiveAttributeFilter (filter : JSValue) : Bool :=
  !lodashIsEmpty filter && isNotUndefined (jsGetTotal filter "positiveAttributeFilter")

/-- src/VisualizationObject.ts, isMeasureValueFilter (lines 256-261). -/
def isMeasureValueFilter (filter : JSValue) : Bool :=
  !lodashIsEmpty filter && isNotUndefined (jsGetTotal filter "measureValueFilter")

/-- src/VisualizationObject.ts, isAbsoluteDateFilter (lines 263-267). -/
def isAbsoluteDateFilter (filter : JSValue) : Bool :=
  !lodashIsEmpty filter && isNotUndefined (jsGetTotal filter "absoluteDateFilter")

/-- src/VisualizationObject.ts, isRelativeDateFilter (lines 269-273). -/
def isRelativeDateFilter (filter : JSValue) : Bool :=
  !lodashIsEmpty filter && isNotUndefined (jsGetTotal filter "relativeDateFilter")

/-- src/VisualizationObject.ts, isAttribute (lines 275-277). -/
def isAttribute (bucketItem : JSValue) : Bool :=
  !lodashIsEmpty bucketItem && isNotUndefined (jsGetTotal bucketItem "visualizationAttribute")

/-- src/VisualizationObject.ts, isLocalIdentifierQualifier
(lines 279-286). -/
def isLocalIdentifierQualifier (objectQualifier : JSValue) : Bool :=
  !lodashIsEmpty objectQualifier && isNotUndefined (jsGetTotal objectQualifier "localIdentifier")

/-- src/VisualizationObject.ts, isComparisonCondition (lines 288-292). -/
def isComparisonCondition (condition : JSValue) : Bool :=
  !lodashIsEmpty condition && isNotUndefined (jsGetTotal condition "comparison")

/-- src/VisualizationObject.ts, isRangeCondition (lines 294-296). -/
def isRangeCondition (condition : JSValue) : Bool :=
  !lodashIsEmpty condition && isNotUndefined (jsGetTotal condition "range")

end VisualizationObject

/-! ## Statement-side helpers -/

/-- Is the value an object literal (the shape every well-formed variant
payload of the data model has)? -/
def isObjectValue : JSValue → Bool
  | .obj _ => true
  | _ => false

/-- Does the value have at least one declared (own) property?  True for
non-empty objects and non-empty arrays, false for primitives. -/
def hasDeclaredProperty : JSValue → Bool
  | .obj fields => !fields.isEmpty
  | .arr elems => !elems.isEmpty
  | _ => false

/-- Is the value a non-object primitive or the empty object: the
degenerate inputs of the safety claims other than null and undefined? -/
def primitiveOrEmptyObject : JSValue → Bool
  | .bool _ => true
  | .num _ => true
  | .str _ => true
  | .obj fields => fields.isEmpty
  | _ => false

/-- Is the value null or undefined? -/
def isNullish : JSValue → Bool
  | .null => true
  | .undefined => true
  | _ => false

/-- The base value the getEventType destructuring starts from:
`obj || emptyObject`. -/
def defaultedBase (x : JSValue) : JSValue :=
  if jsTruthy x then x else JSValue.obj []

/-- The gdc level reached by the getEventType destructuring. -/
def gdcLevel (x : JSValue) : JSValue :=
  jsGetTotal (defaultedBase x) "gdc"

/-- The event level reached by the getEventType destructuring, computed
with total property access. -/
def eventLevel (x : JSValue) : JSValue :=
  jsGetTotal (withDefault (JSValue.obj []) (gdcLevel x)) "event"

/-- The raw name value reached by the getEventType destructuring, computed
with total property access. -/
def rawEventName (x : JSValue) : JSValue :=
  jsGetTotal (withDefault (JSValue.obj []) (eventLevel x)) "name"

/-- The defensive optional-chain extraction described by the spec: the
event name with the empty string substituted when the name is absent. -/
def eventNameOrEmpty (x : JSValue) : JSValue :=
  withDefault (JSValue.str "") (rawEventName x)

/-- The inputs on which the destructuring in getEventType cannot throw:
neither the gdc level nor the event level holds null.  (A level holding
undefined is replaced by the destructuring default and is safe.) -/
def destructuringSafe (x : JSValue) : Bool :=
  isNotNull (gdcLevel x) && isNotNull (eventLevel x)

/-- A fully-shaped three-level protocol envelope with the given product,
event name, payload and correlation id. -/
def mkEnvelope (product name data contextId : JSValue) : JSValue :=
  JSValue.obj [("gdc", JSValue.obj [
    ("product", product),
    ("event", JSValue.obj [("name", name), ("data", data), ("contextId", contextId)])])]

/-- The round-trip scenario input of the spec: an analytical-designer
saveInsight command envelope carrying a title payload. -/
def adSaveInsightEnvelope : JSValue :=
  JSValue.obj [("gdc", JSValue.obj [
    ("product", JSValue.str "analyticalDesigner"),
    ("event", JSValue.obj [
      ("name", JSValue.str "saveInsight"),
      ("data", JSValue.obj [("title", JSValue.str "My Insight")])])])]

/-- The simple-measure scenario input of the spec. -/
def simpleMeasureInput : JSValue :=
  JSValue.obj [("measure", JSValue.obj [
    ("localIdentifier", JSValue.str "m1"),
    ("definition", JSValue.obj [("measure", JSValue.obj [
      ("item", JSValue.obj [("identifier", JSValue.str "attr.revenue")])])])])]

/-- The positive-attribute-filter scenario input of the spec. -/
def positiveFilterInput : JSValue :=
  JSValue.obj [("positiveAttributeFilter", JSValue.obj [
    ("displayForm", JSValue.obj [("identifier", JSValue.str "df1")]),
    ("in", JSValue.arr [JSValue.str "a", JSValue.str "b"])])]

/-! ## Claim property bundles -/

/-- All protocol command/event data guards of both products return the
same result on the two given inputs (the property behind claim C9). -/
def GuardsAgree (x y : JSValue) : Prop :=
  isCommandFailedData x = isCommandFailedData y ∧
  EmbeddedAnalyticalDesigner.isAdCommandFailedData x = EmbeddedAnalyticalDesigner.isAdCommandFailedData y ∧
  EmbeddedAnalyticalDesigner.isDrillableItemsCommandData x = EmbeddedAnalyticalDesigner.isDrillableItemsCommandData y ∧
  EmbeddedAnalyticalDesigner.isOpenInsightCommandData x = EmbeddedAnalyticalDesigner.isOpenInsightCommandData y ∧
  EmbeddedAnalyticalDesigner.isClearCommandData x = EmbeddedAnalyticalDesigner.isClearCommandData y ∧
  EmbeddedAnalyticalDesigner.isSaveInsightCommandData x = EmbeddedAnalyticalDesigner.isSaveInsightCommandData y ∧
  EmbeddedAnalyticalDesigner.isSaveAsInsightCommandData x = EmbeddedAnalyticalDesigner.isSaveAsInsightCommandData y ∧
  EmbeddedAnalyticalDesigner.isExportInsightCommandData x = EmbeddedAnalyticalDesigner.isExportInsightCommandData y ∧
  EmbeddedAnalyticalDesigner.isUndoCommandData x = EmbeddedAnalyticalDesigner.isUndoCommandData y ∧
  EmbeddedAnalyticalDesigner.isRedoCommandData x = EmbeddedAnalyticalDesigner.isRedoCommandData y ∧
  EmbeddedAnalyticalDesigner.isNewInsightInitializedData x = EmbeddedAnalyticalDesigner.isNewInsightInitializedData y ∧
  EmbeddedAnalyticalDesigner.isInsightOpenedData x = EmbeddedAnalyticalDesigner.isInsightOpenedData y ∧
  EmbeddedAnalyticalDesigner.isInsightSavedData x = EmbeddedAnalyticalDesigner.isInsightSavedData y ∧
  EmbeddedAnalyticalDesigner.isExportFinishedData x = EmbeddedAnalyticalDesigner.isExportFinishedData y ∧
  EmbeddedAnalyticalDesigner.isUndoFinishedData x = EmbeddedAnalyticalDesigner.isUndoFinishedData y ∧
  EmbeddedAnalyticalDesigner.isRedoFinishedData x = EmbeddedAnalyticalDesigner.isRedoFinishedData y ∧
  EmbeddedKpiDashboard.isSaveDashboardCommandData x = EmbeddedKpiDashboard.isSaveDashboardCommandData y ∧
  EmbeddedKpiDashboard.isCancelEditCommandData x = EmbeddedKpiDashboard.isCancelEditCommandData y ∧
  EmbeddedKpiDashboard.isSwitchToEditCommandData x = EmbeddedKpiDashboard.isSwitchToEditCommandData y ∧
  EmbeddedKpiDashboard.isDrillableItemsCommandData x = EmbeddedKpiDashboard.isDrillableItemsCommandData y ∧
  EmbeddedKpiDashboard.isSetSizeCommandData x = EmbeddedKpiDashboard.isSetSizeCommandData y ∧
  EmbeddedKpiDashboard.isAddWidgetCommandData x = EmbeddedKpiDashboard.isAddWidgetCommandData y ∧
  EmbeddedKpiDashboard.isAddFilterCommandData x = EmbeddedKpiDashboard.isAddFilterCommandData y ∧
  EmbeddedKpiDashboard.isExportToPdfCommandData x = EmbeddedKpiDashboard.isExportToPdfCommandData y

/-- Every narrowing predicate of the library yields a negative result,
without raising, on the given input (the safe part of claim C3). -/
def NarrowingGuardsFalse (x : JSValue) : Prop :=
  VisualizationObject.isMeasure x = false ∧
  VisualizationObject.isVisualizationAttribute x = false ∧
  VisualizationObject.isMeasureDefinition x = false ∧
  VisualizationObject.isArithmeticMeasureDefinition x = false ∧
  VisualizationObject.isPopMeasureDefinition x = false ∧
  VisualizationObject.isPreviousPeriodMeasureDefinition x = false ∧
  VisualizationObject.isAttributeFilter x = false ∧
  VisualizationObject.isDateFilter x = false ∧
  VisualizationObject.isPositiveAttributeFilter x = false ∧
  VisualizationObject.isMeasureValueFilter x = false ∧
  VisualizationObject.isAbsoluteDateFilter x = false ∧
  VisualizationObject.isRelativeDateFilter x = false ∧
  VisualizationObject.isAttribute x = false ∧
  VisualizationObject.isLocalIdentifierQualifier x = false ∧
  VisualizationObject.isComparisonCondition x = false ∧
  VisualizationObject.isRangeCondition x = false ∧
  isCommandFailedData x = Except.ok false ∧
  EmbeddedAnalyticalDesigner.isAdCommandFailedData x = Except.ok false ∧
  EmbeddedAnalyticalDesigner.isDrillableItemsCommandData x = Except.ok false ∧
  EmbeddedAnalyticalDesigner.isOpenInsightCommandData x = Except.ok false ∧
  EmbeddedAnalyticalDesigner.isClearCommandData x = Except.ok false ∧
  EmbeddedAnalyticalDesigner.isSaveInsightCommandData x = Except.ok false ∧
  EmbeddedAnalyticalDesigner.isSaveAsInsightCommandData x = Except.ok false ∧
  EmbeddedAnalyticalDesigner.isExportInsightCommandData x = Except.ok false ∧
  EmbeddedAnalyticalDesigner.isUndoCommandData x = Except.ok false ∧
  EmbeddedAnalyticalDesigner.isRedoCommandData x = Except.ok false ∧
  EmbeddedAnalyticalDesigner.isNewInsightInitializedData x = Except.ok false ∧
  EmbeddedAnalyticalDesigner.isInsightOpenedData x = Except.ok false ∧
  EmbeddedAnalyticalDesigner.isInsightSavedData x = Except.ok false ∧
  EmbeddedAnalyticalDesigner.isExportFinishedData x = Except.ok false ∧
  EmbeddedAnalyticalDesigner.isUndoFinishedData x = Except.ok false ∧
  EmbeddedAnalyticalDesigner.isRedoFinishedData x = Except.ok false ∧
  EmbeddedKpiDashboard.isSaveDashboardCommandData x = Except.ok false ∧
  EmbeddedKpiDashboard.isCancelEditCommandData x = Except.ok false ∧
  EmbeddedKpiDashboard.isSwitchToEditCommandData x = Except.ok false ∧
  EmbeddedKpiDashboard.isDrillableItemsCommandData x = Except.ok false ∧
  EmbeddedKpiDashboard.isSetSizeCommandData x = Except.ok false ∧
  EmbeddedKpiDashboard.isAddWidgetCommandData x = Except.ok false ∧
  EmbeddedKpiDashboard.isAddFilterCommandData x = Except.ok false ∧
  EmbeddedKpiDashboard.isExportToPdfCommandData x = Except.ok false ∧
  AFM.isObjectUriQualifier x = Except.ok false ∧
  AFM.isSimpleMeasureDefinition x = Except.ok false ∧
  AFM.isPopMeasureDefinition x = Except.ok false ∧
  AFM.isAttributeSortItem x = Except.ok false ∧
  AFM.isMeasureSortItem x = Except.ok false ∧
  AFM.isMeasureLocatorItem x = Except.ok false ∧
  AFM.isPositiveAttributeFilter x = Except.ok false ∧
  AFM.isNegativeAttributeFilter x = Except.ok false ∧
  Except.map jsTruthy (EmbeddedKpiDashboard.isIdentifierInsight x) = Except.ok false ∧
  Except.map jsTruthy (EmbeddedKpiDashboard.isUriInsight x) = Except.ok false

/-- What the library guards actually do on a null or undefined input: the
isEmpty-guarded and getEventType-based guards return a negative result,
while the bare property-access guards raise a TypeError (the corrected
part of claim C3). -/
def NullishGuardBehavior (x : JSValue) : Prop :=
  VisualizationObject.isMeasure x = false ∧
  VisualizationObject.isVisualizationAttribute x = false ∧
  VisualizationObject.isMeasureDefinition x = false ∧
  VisualizationObject.isArithmeticMeasureDefinition x = false ∧
  VisualizationObject.isPopMeasureDefinition x = false ∧
  VisualizationObject.isPreviousPeriodMeasureDefinition x = false ∧
  VisualizationObject.isAttributeFilter x = false ∧
  VisualizationObject.isDateFilter x = false ∧
  VisualizationObject.isPositiveAttributeFilter x = false ∧
  VisualizationObject.isMeasureValueFilter x = false ∧
  VisualizationObject.isAbsoluteDateFilter x = false ∧
  VisualizationObject.isRelativeDateFilter x = false ∧
  VisualizationObject.isAttribute x = false ∧
  VisualizationObject.isLocalIdentifierQualifier x = false ∧
  VisualizationObject.isComparisonCondition x = false ∧
  VisualizationObject.isRangeCondition x = false ∧
  isCommandFailedData x = Except.ok false ∧
  EmbeddedAnalyticalDesigner.isAdCommandFailedData x = Except.ok false ∧
  EmbeddedAnalyticalDesigner.isDrillableItemsCommandData x = Except.ok false ∧
  EmbeddedAnalyticalDesigner.isOpenInsightCommandData x = Except.ok false ∧
  EmbeddedAnalyticalDesigner.isClearCommandData x = Except.ok false ∧
  EmbeddedAnalyticalDesigner.isSaveInsightCommandData x = Except.ok false ∧
  EmbeddedAnalyticalDesigner.isSaveAsInsightCommandData x = Except.ok false ∧
  EmbeddedAnalyticalDesigner.isExportInsightCommandData x = Except.ok false ∧
  EmbeddedAnalyticalDesigner.isUndoCommandData x = Except.ok false ∧
  EmbeddedAnalyticalDesigner.isRedoCommandData x = Except.ok false ∧
  EmbeddedAnalyticalDesigner.isNewInsightInitializedData x = Except.ok false ∧
  EmbeddedAnalyticalDesigner.isInsightOpenedData x = Except.ok false ∧
  EmbeddedAnalyticalDesigner.isInsightSavedData x = Except.ok false ∧
  EmbeddedAnalyticalDesigner.isExportFinishedData x = Except.ok false ∧
  EmbeddedAnalyticalDesigner.isUndoFinishedData x = Except.ok false ∧
  EmbeddedAnalyticalDesigner.isRedoFinishedData x = Except.ok false ∧
  EmbeddedKpiDashboard.isSaveDashboardCommandData x = Except.ok false ∧
  EmbeddedKpiDashboard.isCancelEditCommandData x = Except.ok false ∧
  EmbeddedKpiDashboard.isSwitchToEditCommandData x = Except.ok false ∧
  EmbeddedKpiDashboard.isDrillableItemsCommandData x = Except.ok false ∧
  EmbeddedKpiDashboard.isSetSizeCommandData x = Except.ok false ∧
  EmbeddedKpiDashboard.isAddWidgetCommandData x = Except.ok false ∧
  EmbeddedKpiDashboard.isAddFilterCommandData x = Except.ok false ∧
  EmbeddedKpiDashboard.isExportToPdfCommandData x = Except.ok false ∧
  AFM.isObjectUriQualifier x = Except.error JSError.typeError ∧
  AFM.isSimpleMeasureDefinition x = Except.error JSError.typeError ∧
  AFM.isPopMeasureDefinition x = Except.error JSError.typeError ∧
  AFM.isAttributeSortItem x = Except.error JSError.typeError ∧
  AFM.isMeasureSortItem x = Except.error JSError.typeError ∧
  AFM.isMeasureLocatorItem x = Except.error JSError.typeError ∧
  AFM.isPositiveAttributeFilter x = Except.error JSError.typeError ∧
  AFM.isNegativeAttributeFilter x = Except.error JSError.typeError ∧
  EmbeddedKpiDashboard.isIdentifierInsight x = Except.error JSError.typeError ∧
  EmbeddedKpiDashboard.isUriInsight x = Except.error JSError.typeError

/-- For a value built as one variant of a discriminated union (a single
marker field holding an object payload p), the variant's own guard accepts
it and every sibling guard of the same union rejects it (the matrix behind
claim C4). -/
def VariantGuardMatrix (p : JSValue) : Prop :=
  VisualizationObject.isMeasureDefinition (JSValue.obj [("measureDefinition", p)]) = true ∧
  VisualizationObject.isArithmeticMeasureDefinition (JSValue.obj [("measureDefinition", p)]) = false ∧
  VisualizationObject.isPopMeasureDefinition (JSValue.obj [("measureDefinition", p)]) = false ∧
  VisualizationObject.isPreviousPeriodMeasureDefinition (JSValue.obj [("measureDefinition", p)]) = false ∧
  VisualizationObject.isMeasureDefinition (JSValue.obj [("arithmeticMeasure", p)]) = false ∧
  VisualizationObject.isArithmeticMeasureDefinition (JSValue.obj [("arithmeticMeasure", p)]) = true ∧
  VisualizationObject.isPopMeasureDefinition (JSValue.obj [("arithmeticMeasure", p)]) = false ∧
  VisualizationObject.isPreviousPeriodMeasureDefinition (JSValue.obj [("arithmeticMeasure", p)]) = false ∧
  VisualizationObject.isMeasureDefinition (JSValue.obj [("popMeasureDefinition", p)]) = false ∧
  VisualizationObject.isArithmeticMeasureDefinition (JSValue.obj [("popMeasureDefinition", p)]) = false ∧
  VisualizationObject.isPopMeasureDefinition (JSValue.obj [("popMeasureDefinition", p)]) = true ∧
  VisualizationObject.isPreviousPeriodMeasureDefinition (JSValue.obj [("popMeasureDefinition", p)]) = false ∧
  VisualizationObject.isMeasureDefinition (JSValue.obj [("previousPeriodMeasure", p)]) = false ∧
  VisualizationObject.isArithmeticMeasureDefinition (JSValue.obj [("previousPeriodMeasure", p)]) = false ∧
  VisualizationObject.isPopMeasureDefinition (JSValue.obj [("previousPeriodMeasure", p)]) = false ∧
  VisualizationObject.isPreviousPeriodMeasureDefinition (JSValue.obj [("previousPeriodMeasure", p)]) = true ∧
  AFM.isSimpleMeasureDefinition (JSValue.obj [("measure", p)]) = Except.ok true ∧
  AFM.isPopMeasureDefinition (JSValue.obj [("measure", p)]) = Except.ok false ∧
  AFM.isSimpleMeasureDefinition (JSValue.obj [("popMeasure", p)]) = Except.ok false ∧
  AFM.isPopMeasureDefinition (JSValue.obj [("popMeasure", p)]) = Except.ok true ∧
  AFM.isAttributeSortItem (JSValue.obj [("attributeSortItem", p)]) = Except.ok true ∧
  AFM.isMeasureSortItem (JSValue.obj [("attributeSortItem", p)]) = Except.ok false ∧
  AFM.isAttributeSortItem (JSValue.obj [("measureSortItem", p)]) = Except.ok false ∧
  AFM.isMeasureSortItem (JSValue.obj [("measureSortItem", p)]) = Except.ok true ∧
  AFM.isMeasureLocatorItem (JSValue.obj [("measureLocatorItem", p)]) = Except.ok true ∧
  AFM.isMeasureLocatorItem (JSValue.obj [("attributeLocatorItem", p)]) = Except.ok false ∧
  AFM.isPositiveAttributeFilter (JSValue.obj [("positiveAttributeFilter", p)]) = Except.ok true ∧
  AFM.isNegativeAttributeFilter (JSValue.obj [("positiveAttributeFilter", p)]) = Except.ok false ∧
  AFM.isPositiveAttributeFilter (JSValue.obj [("negativeAttributeFilter", p)]) = Except.ok false ∧
  AFM.isNegativeAttributeFilter (JSValue.obj [("negativeAttributeFilter", p)]) = Except.ok true ∧
  VisualizationObject.isPositiveAttributeFilter (JSValue.obj [("positiveAttributeFilter", p)]) = true ∧
  VisualizationObject.isPositiveAttributeFilter (JSValue.obj [("negativeAttributeFilter", p)]) = false ∧
  VisualizationObject.isAttributeFilter (JSValue.obj [("positiveAttributeFilter", p)]) = true ∧
  VisualizationObject.isDateFilter (JSValue.obj [("positiveAttributeFilter", p)]) = false ∧
  VisualizationObject.isMeasureValueFilter (JSValue.obj [("positiveAttributeFilter", p)]) = false ∧
  VisualizationObject.isAttributeFilter (JSValue.obj [("negativeAttributeFilter", p)]) = true ∧
  VisualizationObject.isDateFilter (JSValue.obj [("negativeAttributeFilter", p)]) = false ∧
  VisualizationObject.isMeasureValueFilter (JSValue.obj [("negativeAttributeFilter", p)]) = false ∧
  VisualizationObject.isAbsoluteDateFilter (JSValue.obj [("absoluteDateFilter", p)]) = true ∧
  VisualizationObject.isRelativeDateFilter (JSValue.obj [("absoluteDateFilter", p)]) = false ∧
  VisualizationObject.isAbsoluteDateFilter (JSValue.obj [("relativeDateFilter", p)]) = false ∧
  VisualizationObject.isRelativeDateFilter (JSValue.obj [("relativeDateFilter", p)]) = true ∧
  VisualizationObject.isDateFilter (JSValue.obj [("absoluteDateFilter", p)]) = true ∧
  VisualizationObject.isAttributeFilter (JSValue.obj [("absoluteDateFilter", p)]) = false ∧
  VisualizationObject.isMeasureValueFilter (JSValue.obj [("absoluteDateFilter", p)]) = false ∧
  VisualizationObject.isDateFilter (JSValue.obj [("relativeDateFilter", p)]) = true ∧
  VisualizationObject.isAttributeFilter (JSValue.obj [("relativeDateFilter", p)]) = false ∧
  VisualizationObject.isMeasureValueFilter (JSValue.obj [("relativeDateFilter", p)]) = false ∧
  VisualizationObject.isMeasureValueFilter (JSValue.obj [("measureValueFilter", p)]) = true ∧
  VisualizationObject.isAttributeFilter (JSValue.obj [("measureValueFilter", p)]) = false ∧
  VisualizationObject.isDateFilter (JSValue.obj [("measureValueFilter", p)]) = false ∧
  VisualizationObject.isComparisonCondition (JSValue.obj [("comparison", p)]) = true ∧
  VisualizationObject.isRangeCondition (JSValue.obj [("comparison", p)]) = false ∧
  VisualizationObject.isComparisonCondition (JSValue.obj [("range", p)]) = false ∧
  VisualizationObject.isRangeCondition (JSValue.obj [("range", p)]) = true ∧
  VisualizationObject.isMeasure (JSValue.obj [("measure", p)]) = true ∧
  VisualizationObject.isVisualizationAttribute (JSValue.obj [("measure", p)]) = false ∧
  VisualizationObject.isAttribute (JSValue.obj [("measure", p)]) = false ∧
  VisualizationObject.isMeasure (JSValue.obj [("visualizationAttribute", p)]) = false ∧
  VisualizationObject.isVisualizationAttribute (JSValue.obj [("visualizationAttribute", p)]) = true ∧
  VisualizationObject.isAttribute (JSValue.obj [("visualizationAttribute", p)]) = true

/-! ## Helper lemmas -/

theorem jsGet_eq_total (v : JSValue) (k : String) (h1 : isNotNull v = true)
    (h2 : isNotUndefined v = true) : jsGet v k = Except.ok (jsGetTotal v k) := by
  cases v <;> first | rfl | exact Bool.noConfusion h1 | exact Bool.noConfusion h2

theorem withDefault_notNull (v : JSValue) (h : isNotNull v = true) :
    isNotNull (withDefault (JSValue.obj []) v) = true := by
  cases v <;> first | rfl | exact Bool.noConfusion h

theorem withDefault_notUndefined (v : JSValue) :
    isNotUndefined (withDefault (JSValue.obj []) v) = true := by
  cases v <;> rfl

theorem defaultedBase_notNull (x : JSValue) : isNotNull (defaultedBase x) = true := by
  unfold defaultedBase
  cases x <;> (try rfl) <;> (split <;> rfl)

theorem defaultedBase_notUndefined (x : JSValue) : isNotUndefined (defaultedBase x) = true := by
  unfold defaultedBase
  cases x <;> (try rfl) <;> (split <;> rfl)

theorem getEventType_eq_of_safe (x : JSValue) (h : destructuringSafe x = true) :
    getEventType x = Except.ok (eventNameOrEmpty x) := by
  rw [destructuringSafe, Bool.and_eq_true] at h
  obtain ⟨h1, h2⟩ := h
  have e1 : jsGet (if jsTruthy x then x else JSValue.obj []) "gdc" = Except.ok (gdcLevel x) :=
    jsGet_eq_total (defaultedBase x) "gdc" (defaultedBase_notNull x) (defaultedBase_notUndefined x)
  have e2 : jsGet (withDefault (JSValue.obj []) (gdcLevel x)) "event" = Except.ok (eventLevel x) :=
    jsGet_eq_total _ "event" (withDefault_notNull _ h1) (withDefault_notUndefined _)
  have e3 : jsGet (withDefault (JSValue.obj []) (eventLevel x)) "name" = Except.ok (rawEventName x) :=
    jsGet_eq_total _ "name" (withDefault_notNull _ h2) (withDefault_notUndefined _)
  simp only [getEventType, e1, e2, e3]
  rfl

theorem getEventType_flat (x : JSValue)
    (h : primitiveOrEmptyObject x = true ∨ isNullish x = true) :
    getEventType x = Except.ok (JSValue.str "") := by
  cases x with
  | undefined => rfl
  | null => rfl
  | bool b => cases b <;> rfl
  | num n =>
      unfold getEventType
      rcases Bool.eq_false_or_eq_true (jsTruthy (JSValue.num n)) with hn | hn <;>
        rw [hn] <;> rfl
  | str s =>
      unfold getEventType
      rcases Bool.eq_false_or_eq_true (jsTruthy (JSValue.str s)) with hs | hs <;>
        rw [hs] <;> rfl
  | obj fs =>
      cases fs with
      | nil => rfl
      | cons a as =>
          rcases h with h | h <;> exact Bool.noConfusion h
  | arr es => rcases h with h | h <;> exact Bool.noConfusion h

theorem mapGuard_flat (f : JSValue → Bool) (x : JSValue)
    (h : getEventType x = Except.ok (JSValue.str "")) :
    Except.map f (getEventType x) = Except.ok (f (JSValue.str "")) := by
  rw [h]; rfl

theorem voGuard_flat (x : JSValue) (k : String) (h : primitiveOrEmptyObject x = true) :
    (!lodashIsEmpty x && isNotUndefined (jsGetTotal x k)) = false := by
  cases x with
  | undefined => exact Bool.noConfusion h
  | null => exact Bool.noConfusion h
  | bool b => rfl
  | num n => rfl
  | str s => simp [lodashIsEmpty, jsGetTotal, isNotUndefined]
  | obj fs =>
      cases fs with
      | nil => rfl
      | cons a as => exact Bool.noConfusion h
  | arr es => exact Bool.noConfusion h

theorem voGuard2_flat (x : JSValue) (k1 k2 : String) (h : primitiveOrEmptyObject x = true) :
    (!lodashIsEmpty x &&
      (isNotUndefined (jsGetTotal x k1) || isNotUndefined (jsGetTotal x k2))) = false := by
  cases x with
  | undefined => exact Bool.noConfusion h
  | null => exact Bool.noConfusion h
  | bool b => rfl
  | num n => rfl
  | str s => simp [lodashIsEmpty, jsGetTotal, isNotUndefined]
  | obj fs =>
      cases fs with
      | nil => rfl
      | cons a as => exact Bool.noConfusion h
  | arr es => exact Bool.noConfusion h

theorem afmGuard_flat (x : JSValue) (k : String) (h : primitiveOrEmptyObject x = true) :
    Except.map jsTruthy (jsGet x k) = Except.ok false := by
  cases x with
  | undefined => exact Bool.noConfusion h
  | null => exact Bool.noConfusion h
  | bool b => rfl
  | num n => rfl
  | str s => rfl
  | obj fs =>
      cases fs with
      | nil => rfl
      | cons a as => exact Bool.noConfusion h
  | arr es => rfl

/-! ## Claim theorems -/

/-- C1 counterexample: on the partially-nested envelope with gdc equal to
null, getEventType raises a TypeError instead of returning a string — the
destructuring default at the gdc level replaces only undefined, not
null. -/
theorem getEventType_gdc_null_raises :
    getEventType (JSValue.obj [("gdc", JSValue.null)]) = Except.error JSError.typeError := rfl

/-- C1 (amended): for every input whose gdc and event destructuring levels
do not hold null, getEventType returns without raising; the result is the
defensively extracted event name with the empty string substituted when
the name is absent, so an undefined name yields the empty string and a
present string name is returned verbatim. -/
theorem getEventType_defensive_amended (x : JSValue) (h : destructuringSafe x = true) :
    getEventType x = Except.ok (eventNameOrEmpty x) ∧
    (rawEventName x = JSValue.undefined → getEventType x = Except.ok (JSValue.str "")) ∧
    (∀ s : String, rawEventName x = JSValue.str s →
      getEventType x = Except.ok (JSValue.str s)) := by
  have hmain := getEventType_eq_of_safe x h
  refine ⟨hmain, fun hu => ?_, fun s hs => ?_⟩
  · rw [hmain, eventNameOrEmpty, hu]; rfl
  · rw [hmain, eventNameOrEmpty, hs]; rfl

/-- Witness for C1: a full three-level envelope is destructuring-safe and
getEventType extracts its name. -/
theorem getEventType_defensive_amended_witness :
    destructuringSafe
      (JSValue.obj [("gdc", JSValue.obj [("event",
        JSValue.obj [("name", JSValue.str "drill")])])]) = true ∧
    getEventType
      (JSValue.obj [("gdc", JSValue.obj [("event",
        JSValue.obj [("name", JSValue.str "drill")])])]) =
      Except.ok (eventNameOrEmpty
        (JSValue.obj [("gdc", JSValue.obj [("event",
          JSValue.obj [("name", JSValue.str "drill")])])])) :=
  ⟨rfl, (getEventType_defensive_amended
    (JSValue.obj [("gdc", JSValue.obj [("event",
      JSValue.obj [("name", JSValue.str "drill")])])]) rfl).1⟩

/-- C2 counterexample: the object with marker field measure holding the
number 0 is non-empty and its measure property is defined, yet the AFM
simple-measure predicate rejects it, because the predicate tests
truthiness rather than definedness. -/
theorem afm_truthiness_counterexample :
    hasDeclaredProperty (JSValue.obj [("measure", JSValue.num 0)]) = true ∧
    isNotUndefined
      (jsGetTotal (JSValue.obj [("measure", JSValue.num 0)]) "measure") = true ∧
    AFM.isSimpleMeasureDefinition (JSValue.obj [("measure", JSValue.num 0)]) =
      Except.ok false :=
  ⟨rfl, rfl, rfl⟩

/-- C2 (amended): the VisualizationObject predicates do satisfy the
definedness contract — true exactly when the input has at least one
declared property and the marker field is not undefined — but the AFM
predicates return the truthiness of the marker field (rejecting a defined
but falsy marker) and they raise on null or undefined input. -/
theorem marker_definedness_vs_truthiness :
    (∀ x : JSValue,
      VisualizationObject.isMeasure x =
        (hasDeclaredProperty x && isNotUndefined (jsGetTotal x "measure"))) ∧
    (∀ x : JSValue, isNullish x = false →
      AFM.isSimpleMeasureDefinition x =
        Except.ok (jsTruthy (jsGetTotal x "measure"))) := by
  constructor
  · intro x
    cases x <;>
      simp [VisualizationObject.isMeasure, hasDeclaredProperty, lodashIsEmpty,
        jsGetTotal, isNotUndefined]
  · intro x hx
    cases x <;> first | rfl | exact Bool.noConfusion hx

/-- Witness for C2: the AFM simple-measure predicate evaluated on a
non-null object returns the truthiness of its measure field. -/
theorem marker_definedness_vs_truthiness_witness :
    AFM.isSimpleMeasureDefinition (JSValue.obj [("measure", JSValue.num 3)]) =
      Except.ok (jsTruthy
        (jsGetTotal (JSValue.obj [("measure", JSValue.num 3)]) "measure")) :=
  marker_definedness_vs_truthiness.2 (JSValue.obj [("measure", JSValue.num 3)]) rfl

/-- C3 counterexample: the AFM simple-measure predicate raises a TypeError
on null input instead of returning false — the bare property access has no
isEmpty or default guard in front of it. -/
theorem afm_guard_null_raises :
    AFM.isSimpleMeasureDefinition JSValue.null = Except.error JSError.typeError := rfl

/-- C3 (amended): on non-object primitives and the empty object every
narrowing predicate returns a negative result without raising; on null and
undefined the isEmpty-guarded VisualizationObject predicates and the
getEventType-based envelope predicates return a negative result, but the
bare property-access predicates (the AFM guards and the insight-ref
guards) raise a TypeError. -/
theorem guards_on_degenerate_inputs (x : JSValue) :
    (primitiveOrEmptyObject x = true → NarrowingGuardsFalse x) ∧
    (isNullish x = true → NullishGuardBehavior x) := by
  constructor
  · intro h
    have hflat := getEventType_flat x (Or.inl h)
    unfold NarrowingGuardsFalse
    repeat' apply And.intro
    all_goals
      first
      | exact voGuard_flat x _ h
      | exact voGuard2_flat x _ _ h
      | exact mapGuard_flat _ x hflat
      | exact afmGuard_flat x _ h
  · intro h
    cases x with
    | null =>
        unfold NullishGuardBehavior
        repeat' apply And.intro
        all_goals rfl
    | undefined =>
        unfold NullishGuardBehavior
        repeat' apply And.intro
        all_goals rfl
    | bool b => exact Bool.noConfusion h
    | num n => exact Bool.noConfusion h
    | str s => exact Bool.noConfusion h
    | obj fs => exact Bool.noConfusion h
    | arr es => exact Bool.noConfusion h

/-- Witness for C3: the number 7 is a non-object primitive on which every
narrowing predicate returns a negative result. -/
theorem guards_on_degenerate_inputs_witness : NarrowingGuardsFalse (JSValue.num 7) :=
  (guards_on_degenerate_inputs (JSValue.num 7)).1 rfl

/-- C4: for every object payload p, building a value as one variant of any
discriminated union of the data model (its single marker field holding p)
makes that variant's guard return true and every sibling guard of the same
union return false. -/
theorem union_variant_guard_matrix (p : JSValue) (h : isObjectValue p = true) :
    VariantGuardMatrix p := by
  cases p with
  | obj fs =>
      unfold VariantGuardMatrix
      repeat' apply And.intro
      all_goals rfl
  | undefined => exact Bool.noConfusion h
  | null => exact Bool.noConfusion h
  | bool b => exact Bool.noConfusion h
  | num n => exact Bool.noConfusion h
  | str s => exact Bool.noConfusion h
  | arr es => exact Bool.noConfusion h

/-- Witness for C4: the guard matrix holds for a concrete object
payload. -/
theorem union_variant_guard_matrix_witness :
    VariantGuardMatrix (JSValue.obj [("item", JSValue.obj [("uri", JSValue.str "u")])]) :=
  union_variant_guard_matrix
    (JSValue.obj [("item", JSValue.obj [("uri", JSValue.str "u")])]) rfl

/-- C5: on the analytical-designer saveInsight envelope, getEventType
returns the string saveInsight, the analytical-designer save-command guard
returns true, and every other command/event data guard of both products
returns false. -/
theorem ad_save_roundtrip :
    getEventType adSaveInsightEnvelope = Except.ok (JSValue.str "saveInsight") ∧
    EmbeddedAnalyticalDesigner.isSaveInsightCommandData adSaveInsightEnvelope =
      Except.ok true ∧
    isCommandFailedData adSaveInsightEnvelope = Except.ok false ∧
    EmbeddedAnalyticalDesigner.isAdCommandFailedData adSaveInsightEnvelope = Except.ok false ∧
    EmbeddedAnalyticalDesigner.isDrillableItemsCommandData adSaveInsightEnvelope = Except.ok false ∧
    EmbeddedAnalyticalDesigner.isOpenInsightCommandData adSaveInsightEnvelope = Except.ok false ∧
    EmbeddedAnalyticalDesigner.isClearCommandData adSaveInsightEnvelope = Except.ok false ∧
    EmbeddedAnalyticalDesigner.isSaveAsInsightCommandData adSaveInsightEnvelope = Except.ok false ∧
    EmbeddedAnalyticalDesigner.isExportInsightCommandData adSaveInsightEnvelope = Except.ok false ∧
    EmbeddedAnalyticalDesigner.isUndoCommandData adSaveInsightEnvelope = Except.ok false ∧
    EmbeddedAnalyticalDesigner.isRedoCommandData adSaveInsightEnvelope = Except.ok false ∧
    EmbeddedAnalyticalDesigner.isNewInsightInitializedData adSaveInsightEnvelope = Except.ok false ∧
    EmbeddedAnalyticalDesigner.isInsightOpenedData adSaveInsightEnvelope = Except.ok false ∧
    EmbeddedAnalyticalDesigner.isInsightSavedData adSaveInsightEnvelope = Except.ok false ∧
    EmbeddedAnalyticalDesigner.isExportFinishedData adSaveInsightEnvelope = Except.ok false ∧
    EmbeddedAnalyticalDesigner.isUndoFinishedData adSaveInsightEnvelope = Except.ok false ∧
    EmbeddedAnalyticalDesigner.isRedoFinishedData adSaveInsightEnvelope = Except.ok false ∧
    EmbeddedKpiDashboard.isSaveDashboardCommandData adSaveInsightEnvelope = Except.ok false ∧
    EmbeddedKpiDashboard.isCancelEditCommandData adSaveInsightEnvelope = Except.ok false ∧
    EmbeddedKpiDashboard.isSwitchToEditCommandData adSaveInsightEnvelope = Except.ok false ∧
    EmbeddedKpiDashboard.isDrillableItemsCommandData adSaveInsightEnvelope = Except.ok false ∧
    EmbeddedKpiDashboard.isSetSizeCommandData adSaveInsightEnvelope = Except.ok false ∧
    EmbeddedKpiDashboard.isAddWidgetCommandData adSaveInsightEnvelope = Except.ok false ∧
    EmbeddedKpiDashboard.isAddFilterCommandData adSaveInsightEnvelope = Except.ok false ∧
    EmbeddedKpiDashboard.isExportToPdfCommandData adSaveInsightEnvelope = Except.ok false := by
  repeat' apply And.intro
  all_goals rfl

/-- C6: the literal discriminator constants equal, character for
character, the documented wire values: the analytical-designer save
command, the drillable-items command of both products, the
export-finished event, the dashboard-saved event, and the four error
codes. -/
theorem wire_literal_constants :
    EmbeddedAnalyticalDesigner.GdcAdCommandType.Save = "saveInsight" ∧
    EmbeddedAnalyticalDesigner.GdcAdCommandType.DrillableItems = "drillableItems" ∧
    EmbeddedKpiDashboard.GdcKdCommandType.DrillableItems = "drillableItems" ∧
    EmbeddedAnalyticalDesigner.GdcAdEventType.ExportFinished = "exportInsightFinished" ∧
    EmbeddedKpiDashboard.GdcKdEventType.DashboardSaved = "dashboardSaved" ∧
    GdcErrorType.InvalidCommand = "error:invalidCommand" ∧
    GdcErrorType.InvalidArgument = "error:invalidArgument" ∧
    GdcErrorType.InvalidState = "error:invalidState" ∧
    GdcErrorType.RuntimeError = "error:runtime" :=
  ⟨rfl, rfl, rfl, rfl, rfl, rfl, rfl, rfl, rfl⟩

/-- C7: on the simple measure definition scenario input, the AFM
simple-measure predicate returns true while the period-over-period
predicates (AFM popMeasure, VisualizationObject popMeasureDefinition and
previousPeriodMeasure) and the arithmetic-measure predicate return
false. -/
theorem simple_measure_scenario :
    AFM.isSimpleMeasureDefinition simpleMeasureInput = Except.ok true ∧
    AFM.isPopMeasureDefinition simpleMeasureInput = Except.ok false ∧
    VisualizationObject.isArithmeticMeasureDefinition simpleMeasureInput = false ∧
    VisualizationObject.isPopMeasureDefinition simpleMeasureInput = false ∧
    VisualizationObject.isPreviousPeriodMeasureDefinition simpleMeasureInput = false :=
  ⟨rfl, rfl, rfl, rfl, rfl⟩

/-- C8: on the positive attribute filter scenario input, the
positive-attribute-filter predicates return true while the
negative-attribute-filter predicate and the date-filter predicates
(absolute, relative, and the combined date-filter guard) return false. -/
theorem positive_attribute_filter_scenario :
    AFM.isPositiveAttributeFilter positiveFilterInput = Except.ok true ∧
    AFM.isNegativeAttributeFilter positiveFilterInput = Except.ok false ∧
    VisualizationObject.isPositiveAttributeFilter positiveFilterInput = true ∧
    VisualizationObject.isDateFilter positiveFilterInput = false ∧
    VisualizationObject.isAbsoluteDateFilter positiveFilterInput = false ∧
    VisualizationObject.isRelativeDateFilter positiveFilterInput = false :=
  ⟨rfl, rfl, rfl, rfl, rfl, rfl⟩

/-- C9: every command/event data guard of both embedding products computes
its result solely from the extracted event name — equal extracted names
give equal guard results, the analytical-designer and dashboard
drillable-items guards agree on every input (both compare against the
literal drillableItems), and the extracted name of a full envelope is
unchanged by replacing the product or the event payload. -/
theorem embedding_guards_depend_only_on_event_name :
    (∀ x y : JSValue, getEventType x = getEventType y → GuardsAgree x y) ∧
    (∀ x : JSValue,
      EmbeddedAnalyticalDesigner.isDrillableItemsCommandData x =
        EmbeddedKpiDashboard.isDrillableItemsCommandData x) ∧
    (∀ p1 p2 d1 d2 c n : JSValue,
      getEventType (mkEnvelope p1 n d1 c) = getEventType (mkEnvelope p2 n d2 c)) := by
  refine ⟨fun x y h => ?_, fun x => rfl, fun p1 p2 d1 d2 c n => rfl⟩
  unfold GuardsAgree
  repeat' apply And.intro
  all_goals exact congrArg (Except.map _) h

/-- Witness for C9: two envelopes that differ in product and payload but
carry the same event name have equal extracted names, hence every guard
agrees on them. -/
theorem embedding_guards_depend_only_on_event_name_witness :
    GuardsAgree
      (mkEnvelope (JSValue.str "analyticalDesigner") (JSValue.str "drillableItems")
        JSValue.undefined JSValue.undefined)
      (mkEnvelope (JSValue.str "dashboards") (JSValue.str "drillableItems")
        (JSValue.obj []) JSValue.undefined) :=
  embedding_guards_depend_only_on_event_name.1
    (mkEnvelope (JSValue.str "analyticalDesigner") (JSValue.str "drillableItems")
      JSValue.undefined JSValue.undefined)
    (mkEnvelope (JSValue.str "dashboards") (JSValue.str "drillableItems")
      (JSValue.obj []) JSValue.undefined) rfl

/-- C10: the AFM object-uri-qualifier guard classifies by truthiness of
the uri field: on every object it returns the truthiness of uri, and on
the object whose uri is present but the empty string it returns false
even though the field is defined. -/
theorem isObjectUriQualifier_truthiness :
    (∀ fields : List (String × JSValue),
      AFM.isObjectUriQualifier (JSValue.obj fields) =
        Except.ok (jsTruthy (jsGetTotal (JSValue.obj fields) "uri"))) ∧
    AFM.isObjectUriQualifier (JSValue.obj [("uri", JSValue.str "")]) = Except.ok false ∧
    isNotUndefined
      (jsGetTotal (JSValue.obj [("uri", JSValue.str "")]) "uri") = true :=
  ⟨fun _ => rfl, rfl, rfl⟩
